import Mathlib

/-!
Shallow embedding of the decision logic of the MySQL observability tool:
the query-performance classifier of `query_analyzer.py` and the
history/anomaly plumbing of `p3cli.py`.

Numbers: Python floats are modelled as rationals (all constants involved are
exactly representable and only compared/divided), Python ints as naturals.
Python's `re.search` with `re.IGNORECASE` is modelled by a matcher for the
exact (linear) pattern language used by the analyzer's static tables:
case-insensitive literals, character classes, backslash-s, backslash-w,
dot, and the quantifiers one/plus/star.
-/

namespace AceE6

/-- Atom of the linear regex fragment used by the analyzer's patterns. -/
inductive RAtom where
  | lit : Char → RAtom
  | cls : List Char → RAtom
  | wordChar : RAtom
  | spaceChar : RAtom
  | anyChar : RAtom

/-- Quantifier on an atom: exactly one, one-or-more, zero-or-more. -/
inductive RQuant where
  | one : RQuant
  | plus : RQuant
  | star : RQuant

/-- A token of a linear pattern: an atom with its quantifier. -/
def RTok : Type := RAtom × RQuant

/-- Python regex word character for ASCII input: letters, digits, underscore. -/
def isWordChar (c : Char) : Bool :=
  (('a' ≤ c && c ≤ 'z') || ('A' ≤ c && c ≤ 'Z') || ('0' ≤ c && c ≤ '9') || c == '_')

/-- Python regex whitespace for ASCII input. -/
def isSpaceChar (c : Char) : Bool :=
  c == ' ' || c == '\t' || c == '\n' || c == '\r' || c == Char.ofNat 11 || c == Char.ofNat 12

/-- Whether an atom matches one character, case-insensitively (re.IGNORECASE). -/
def atomMatch : RAtom → Char → Bool
  | RAtom.lit a, c => a.toLower == c.toLower
  | RAtom.cls l, c => l.contains c.toLower
  | RAtom.wordChar, c => isWordChar c
  | RAtom.spaceChar, c => isSpaceChar c
  | RAtom.anyChar, c => !(c == '\n')

/-- Star iteration: consume zero or more characters matching `a`, then hand
the remaining characters to the continuation `matchRest`. -/
def starLoop (a : RAtom) (matchRest : List Char → Bool) : List Char → Bool
  | [] => matchRest []
  | c :: cs => matchRest (c :: cs) || (atomMatch a c && starLoop a matchRest cs)

/-- Backtracking matcher: does some prefix of `s` match the token list?
Mirrors the behaviour of Python's compiled pattern at a fixed start
position (greediness is irrelevant for match existence). -/
def matchToks : List RTok → List Char → Bool
  | [], _ => true
  | (a, RQuant.one) :: rest, s =>
      match s with
      | [] => false
      | c :: cs => atomMatch a c && matchToks rest cs
  | (a, RQuant.plus) :: rest, s =>
      match s with
      | [] => false
      | c :: cs => atomMatch a c && starLoop a (matchToks rest) cs
  | (a, RQuant.star) :: rest, s => starLoop a (matchToks rest) s

/-- re.search: the pattern matches starting at some position of `s`. -/
def searchFrom (toks : List RTok) : List Char → Bool
  | [] => matchToks toks []
  | c :: cs => matchToks toks (c :: cs) || searchFrom toks cs

/-- `re.search(pattern, text, re.IGNORECASE)` viewed as a Boolean test. -/
def regexSearch (toks : List RTok) (s : String) : Bool :=
  searchFrom toks s.toList

/-- A run of case-insensitive literal tokens, one each. -/
def litToks (s : String) : List RTok :=
  s.toList.map (fun c => (RAtom.lit c, RQuant.one))

/-- backslash-s with a quantifier. -/
def spTok (q : RQuant) : RTok := (RAtom.spaceChar, q)

/-- backslash-w with a quantifier. -/
def wdTok (q : RQuant) : RTok := (RAtom.wordChar, q)

/-- `.*` -/
def anyStar : RTok := (RAtom.anyChar, RQuant.star)

/-- single literal character token -/
def chTok (c : Char) : RTok := (RAtom.lit c, RQuant.one)

/-- the single-quote and double-quote character class of the LIKE pattern -/
def quoteCls : RTok := (RAtom.cls [Char.ofNat 39, Char.ofNat 34], RQuant.one)

/- The static pattern table `QueryAnalyzer.query_patterns`, each Python regex
translated token by token. -/

/-- regex WHERE backslash-s+ backslash-w+ backslash-s* = backslash-s* backslash-? -/
def pat_mi1 : List RTok :=
  litToks "WHERE" ++ [spTok RQuant.plus, wdTok RQuant.plus, spTok RQuant.star,
    chTok '=', spTok RQuant.star, chTok '?']

/-- regex WHERE backslash-s+ backslash-w+ backslash-s+ IN backslash-s* backslash-( -/
def pat_mi2 : List RTok :=
  litToks "WHERE" ++ [spTok RQuant.plus, wdTok RQuant.plus, spTok RQuant.plus] ++
    litToks "IN" ++ [spTok RQuant.star, chTok '(']

/-- regex ORDER backslash-s+ BY backslash-s+ backslash-w+ -/
def pat_mi3 : List RTok :=
  litToks "ORDER" ++ [spTok RQuant.plus] ++ litToks "BY" ++
    [spTok RQuant.plus, wdTok RQuant.plus]

/-- regex GROUP backslash-s+ BY backslash-s+ backslash-w+ -/
def pat_mi4 : List RTok :=
  litToks "GROUP" ++ [spTok RQuant.plus] ++ litToks "BY" ++
    [spTok RQuant.plus, wdTok RQuant.plus]

/-- regex WHERE backslash-s+ backslash-w+ backslash-s+ LIKE backslash-s+ quote-class % -/
def pat_fts1 : List RTok :=
  litToks "WHERE" ++ [spTok RQuant.plus, wdTok RQuant.plus, spTok RQuant.plus] ++
    litToks "LIKE" ++ [spTok RQuant.plus, quoteCls, chTok '%']

/-- regex WHERE backslash-s+ backslash-w+ backslash-s+ != -/
def pat_fts2 : List RTok :=
  litToks "WHERE" ++ [spTok RQuant.plus, wdTok RQuant.plus, spTok RQuant.plus,
    chTok '!', chTok '=']

/-- regex WHERE backslash-s+ backslash-w+ backslash-s+ NOT backslash-s+ IN -/
def pat_fts3 : List RTok :=
  litToks "WHERE" ++ [spTok RQuant.plus, wdTok RQuant.plus, spTok RQuant.plus] ++
    litToks "NOT" ++ [spTok RQuant.plus] ++ litToks "IN"

/-- regex CROSS backslash-s+ JOIN -/
def pat_ij1 : List RTok :=
  litToks "CROSS" ++ [spTok RQuant.plus] ++ litToks "JOIN"

/-- regex LEFT backslash-s+ JOIN .* WHERE .* IS backslash-s+ NULL -/
def pat_ij2 : List RTok :=
  litToks "LEFT" ++ [spTok RQuant.plus] ++ litToks "JOIN" ++ [anyStar] ++
    litToks "WHERE" ++ [anyStar] ++ litToks "IS" ++ [spTok RQuant.plus] ++ litToks "NULL"

/-- regex JOIN .* ON backslash-s+ backslash-w+ backslash-. backslash-w+
backslash-s* = backslash-s* backslash-w+ backslash-. backslash-w+ .* AND -/
def pat_ij3 : List RTok :=
  litToks "JOIN" ++ [anyStar] ++ litToks "ON" ++
    [spTok RQuant.plus, wdTok RQuant.plus, chTok '.', wdTok RQuant.plus,
     spTok RQuant.star, chTok '=', spTok RQuant.star,
     wdTok RQuant.plus, chTok '.', wdTok RQuant.plus, anyStar] ++
    litToks "AND"

/-- regex WHERE backslash-s+ backslash-w+ backslash-s+ IN backslash-s* backslash-( SELECT -/
def pat_sq1 : List RTok :=
  litToks "WHERE" ++ [spTok RQuant.plus, wdTok RQuant.plus, spTok RQuant.plus] ++
    litToks "IN" ++ [spTok RQuant.star, chTok '('] ++ litToks "SELECT"

/-- regex WHERE backslash-s+ EXISTS backslash-s* backslash-( SELECT -/
def pat_sq2 : List RTok :=
  litToks "WHERE" ++ [spTok RQuant.plus] ++ litToks "EXISTS" ++
    [spTok RQuant.star, chTok '('] ++ litToks "SELECT"

/-- regex SELECT .* FROM backslash-s* backslash-( SELECT -/
def pat_sq3 : List RTok :=
  litToks "SELECT" ++ [anyStar] ++ litToks "FROM" ++
    [spTok RQuant.star, chTok '('] ++ litToks "SELECT"

/-- `self.query_patterns`: issue category name to its ordered pattern list,
in the dictionary's insertion order. -/
def query_patterns : List (String × List (List RTok)) :=
  [("missing_index", [pat_mi1, pat_mi2, pat_mi3, pat_mi4]),
   ("full_table_scan", [pat_fts1, pat_fts2, pat_fts3]),
   ("inefficient_joins", [pat_ij1, pat_ij2, pat_ij3]),
   ("subquery_issues", [pat_sq1, pat_sq2, pat_sq3])]

/-- The issue-detection loop of `analyze_query_performance`: an issue type is
appended once if any of its patterns matches the query text (inner break),
categories visited in table order. -/
def detectIssues (query : String) : List String :=
  (query_patterns.filter (fun p => p.2.any (fun pat => regexSearch pat query))).map
    (fun p => p.1)

/-- `self.slow_query_threshold` (seconds). -/
def slow_query_threshold : ℚ := 2

/-- Input record consumed by `analyze_query_performance`: the keys the method
reads from `query_data` (`explanation` is read with `.get`, default empty). -/
structure QueryRecord where
  id : ℕ
  query : String
  execution_time : ℚ
  rows_examined : ℕ
  rows_sent : ℕ
  explanation : String

/-- The analysis dictionary built by `analyze_query_performance`. -/
structure QueryAnalysis where
  query_id : ℕ
  query : String
  execution_time : ℚ
  rows_examined : ℕ
  rows_sent : ℕ
  is_slow : Bool
  efficiency_ratio : ℚ
  issues : List String
  recommendations : List String
  explanation : String
  severity : String

/-- The severity if/elif chain of `analyze_query_performance` (initial value
low, then reassigned by the first matching tier). -/
def severityOf (t : ℚ) (r : ℕ) : String :=
  if t > 5 ∨ r > 5000000 then "critical"
  else if t > 2 ∨ r > 1000000 then "high"
  else if t > 1 ∨ r > 100000 then "medium"
  else "low"

def recMissingIdx1 : String := "🔍 Add appropriate indexes to improve query performance"
def recMissingIdx2 : String := "📊 Consider composite indexes for multi-column WHERE clauses"
def recFullScan1 : String := "⚠️ Avoid LIKE patterns with leading wildcards"
def recFullScan2 : String := "🔧 Consider full-text search indexes for text searching"
def recJoins1 : String := "🔗 Optimize JOIN conditions and add foreign key indexes"
def recJoins2 : String := "📈 Consider query rewriting for better performance"
def recSubq1 : String := "🔄 Consider rewriting subqueries as JOINs"
def recSubq2 : String := "⚡ Use EXISTS only when necessary, prefer JOINs for better performance"
def recLowEff : String :=
  "📉 Very low efficiency ratio - consider adding WHERE clauses to reduce examined rows"
def recSlowTime : String :=
  "⏱️ Query execution time exceeds 2 seconds - immediate optimization needed"

/-- `QueryAnalyzer._generate_recommendations`: canned strings appended per
detected issue, then the two unconditional heuristics. -/
def generate_recommendations (a : QueryAnalysis) : List String :=
  (if a.issues.contains "missing_index" then [recMissingIdx1, recMissingIdx2] else []) ++
  (if a.issues.contains "full_table_scan" then [recFullScan1, recFullScan2] else []) ++
  (if a.issues.contains "inefficient_joins" then [recJoins1, recJoins2] else []) ++
  (if a.issues.contains "subquery_issues" then [recSubq1, recSubq2] else []) ++
  (if a.efficiency_ratio < 1/100 then [recLowEff] else []) ++
  (if a.execution_time > 2 then [recSlowTime] else [])

/-- The analysis dictionary of `analyze_query_performance` right before
`analysis['recommendations'] = self._generate_recommendations(analysis)`:
all statistics, the severity chain and the issue loop already applied,
recommendations still the empty list. -/
def analysisBase (q : QueryRecord) : QueryAnalysis :=
  ⟨q.id, q.query, q.execution_time, q.rows_examined, q.rows_sent,
   q.execution_time > slow_query_threshold,
   if q.rows_examined > 0 then (q.rows_sent : ℚ) / (q.rows_examined : ℚ) else 0,
   detectIssues q.query, [], q.explanation,
   severityOf q.execution_time q.rows_examined⟩

/-- `QueryAnalyzer.analyze_query_performance`: builds the analysis record,
computes severity and issues, then fills in the recommendations. -/
def analyze_query_performance (q : QueryRecord) : QueryAnalysis :=
  { analysisBase q with recommendations := generate_recommendations (analysisBase q) }

/-- `issue_counts.get(issue, 0) + 1` on an insertion-ordered association list. -/
def bumpCount (m : List (String × ℕ)) (k : String) : List (String × ℕ) :=
  if m.any (fun p => p.1 = k) then
    m.map (fun p => if p.1 = k then (p.1, p.2 + 1) else p)
  else m ++ [(k, 1)]

/-- The summary dictionary of `generate_query_summary`. -/
structure QuerySummary where
  total_queries : ℕ
  slow_queries : ℕ
  critical_queries : ℕ
  high_priority_queries : ℕ
  slow_query_percentage : ℚ
  issue_counts : List (String × ℕ)
  avg_execution_time : ℚ
  total_rows_examined : ℕ
  total_rows_sent : ℕ

/-- `QueryAnalyzer.generate_query_summary`. -/
def generate_query_summary (analyses : List QueryAnalysis) : QuerySummary :=
  let total := analyses.length
  let slow := (analyses.filter (fun a => a.is_slow)).length
  let crit := (analyses.filter (fun a => a.severity = "critical")).length
  let highp := (analyses.filter (fun a =>
    a.severity = "critical" ∨ a.severity = "high")).length
  ⟨total, slow, crit, highp,
   if total > 0 then (slow : ℚ) / (total : ℚ) * 100 else 0,
   analyses.foldl (fun m a => a.issues.foldl bumpCount m) [],
   if total > 0 then (analyses.map (fun a => a.execution_time)).sum / (total : ℚ) else 0,
   (analyses.map (fun a => a.rows_examined)).sum,
   (analyses.map (fun a => a.rows_sent)).sum⟩

/-!
Embedding of the history and anomaly-detection plumbing of
`MySQLObservabilityTool` in `p3cli.py`.
-/

/-- One entry of `metrics_history`: a flat numeric map (metric name to value,
plus the timestamp key). -/
def MetricSample : Type := List (String × ℚ)

/-- The trained scikit-learn pipeline (StandardScaler + IsolationForest) is an
external library object; it is modelled as its observable behaviour on one
metrics sample: the pair `(prediction == -1, decision_function value)`. -/
def AnomalyModel : Type := MetricSample → Bool × ℚ

/-- `MySQLObservabilityTool.save_metrics` restricted to its effect on
`self.metrics_history`: append, then keep the last 1000 entries when the
length exceeds 1000 (`self.metrics_history[-1000:]`). -/
def save_metrics (history : List MetricSample) (m : MetricSample) : List MetricSample :=
  let h := history ++ [m]
  if h.length > 1000 then h.drop (h.length - 1000) else h

/-- `MySQLObservabilityTool.load_metrics_history`. The file system state is
`none` (file absent) or `some contents`; `json_load` is Python's
`json.load`, which either returns a decoded history or raises a decode
error on malformed input. The method has no exception handler, so a decode
error propagates to the caller. -/
def load_metrics_history (json_load : String → Except String (List MetricSample))
    (file : Option String) : Except String (List MetricSample) :=
  match file with
  | some contents => json_load contents
  | none => Except.ok []

/-- `config["ml"]["min_samples_for_training"]` from the default configuration. -/
def min_samples_for_training : ℕ := 10

/-- `MySQLObservabilityTool.train_anomaly_model` restricted to its effect on
`self.model`: with fewer than `min_samples` samples it prints and returns,
leaving the model as it was; otherwise the fitted pipeline (external
scikit-learn computation, passed in as `fit`) replaces it. -/
def train_anomaly_model (min_samples : ℕ) (fit : List MetricSample → AnomalyModel)
    (model : Option AnomalyModel) (metrics_data : List MetricSample) :
    Option AnomalyModel :=
  if metrics_data.length < min_samples then model
  else some (fit metrics_data)

/-- `MySQLObservabilityTool.detect_anomalies`: with an untrained model it
prints and returns `(False, 0.0)`; otherwise the model's prediction and
decision-function score on the current sample. -/
def detect_anomalies (model : Option AnomalyModel) (current_metrics : MetricSample) :
    Bool × ℚ :=
  match model with
  | none => (false, 0)
  | some m => m current_metrics

/-- Rank of the severity strings in the total order
low < medium < high < critical. -/
def severityRank (s : String) : ℕ :=
  if s = "critical" then 3
  else if s = "high" then 2
  else if s = "medium" then 1
  else 0

/-- The query of the spec's Scenario A. -/
def scenarioAQuery : String := "SELECT * FROM users WHERE email = \x27x\x27"

/-- The record of the spec's Scenario A (the analyzer also reads an `id`; the
first demo query's id is used, and the `explanation` key is absent, read as
the empty string). -/
def scenarioARecord : QueryRecord := ⟨1001, scenarioAQuery, 1/2, 1000000, 1, ""⟩

/-- A `json.load` stand-in for concrete scenarios: decodes the canonical empty
snapshot and fails on anything else, as the real decoder does on malformed
input. -/
def json_load_ex : String → Except String (List MetricSample) :=
  fun s => if s = "[]" then Except.ok [] else Except.error "Expecting value"

/- Projection lemmas: the fields of the analysis record as the code computes
them. -/

theorem analyze_severity_eq (q : QueryRecord) :
    (analyze_query_performance q).severity =
      severityOf q.execution_time q.rows_examined := rfl

theorem analyze_issues_eq (q : QueryRecord) :
    (analyze_query_performance q).issues = detectIssues q.query := rfl

theorem analyze_eff_eq (q : QueryRecord) :
    (analyze_query_performance q).efficiency_ratio =
      if q.rows_examined > 0 then (q.rows_sent : ℚ) / (q.rows_examined : ℚ) else 0 := rfl

theorem analyze_recs_eq (q : QueryRecord) :
    (analyze_query_performance q).recommendations =
      generate_recommendations (analysisBase q) := rfl

theorem base_issues_eq (q : QueryRecord) :
    (analysisBase q).issues = detectIssues q.query := rfl

theorem base_eff_eq (q : QueryRecord) :
    (analysisBase q).efficiency_ratio =
      if q.rows_examined > 0 then (q.rows_sent : ℚ) / (q.rows_examined : ℚ) else 0 := rfl

theorem base_time_eq (q : QueryRecord) :
    (analysisBase q).execution_time = q.execution_time := rfl

theorem summary_total_eq (l : List QueryAnalysis) :
    (generate_query_summary l).total_queries = l.length := rfl

theorem summary_slow_eq (l : List QueryAnalysis) :
    (generate_query_summary l).slow_queries =
      (l.filter (fun a => a.is_slow)).length := rfl

theorem summary_crit_eq (l : List QueryAnalysis) :
    (generate_query_summary l).critical_queries =
      (l.filter (fun a => a.severity = "critical")).length := rfl

theorem summary_high_eq (l : List QueryAnalysis) :
    (generate_query_summary l).high_priority_queries =
      (l.filter (fun a => a.severity = "critical" ∨ a.severity = "high")).length := rfl

theorem summary_pct_eq (l : List QueryAnalysis) :
    (generate_query_summary l).slow_query_percentage =
      if l.length > 0 then
        (((l.filter (fun a => a.is_slow)).length : ℚ) / (l.length : ℚ)) * 100
      else 0 := rfl

/-- Filtering with a weaker predicate keeps at least as many elements. -/
theorem length_filter_mono {α : Type} (l : List α) (p q : α → Bool)
    (h : ∀ a, p a = true → q a = true) :
    (l.filter p).length ≤ (l.filter q).length := by
  induction l with
  | nil => simp
  | cons x xs ih =>
    simp only [List.filter_cons]
    by_cases hp : p x
    · rw [if_pos hp, if_pos (h x hp)]
      simpa using ih
    · rw [if_neg hp]
      by_cases hq : q x
      · rw [if_pos hq]
        exact le_trans ih (by simp)
      · rw [if_neg hq]
        exact ih

/-- The severity rank produced by the if/elif chain, tier by tier. -/
theorem rank_severityOf (t : ℚ) (r : ℕ) :
    severityRank (severityOf t r) =
      if t > 5 ∨ r > 5000000 then 3
      else if t > 2 ∨ r > 1000000 then 2
      else if t > 1 ∨ r > 100000 then 1
      else 0 := by
  unfold severityOf
  split_ifs <;> rfl

/-- C9: `generate_query_summary` applied to the empty list returns all-zero
aggregates — zero totals, zero severity counts, empty issue counts, zero
percentage, zero average and zero row totals — and is a total function, so
it raises nothing. -/
theorem claim_C9_empty_summary :
    (generate_query_summary []).total_queries = 0 ∧
    (generate_query_summary []).slow_queries = 0 ∧
    (generate_query_summary []).critical_queries = 0 ∧
    (generate_query_summary []).high_priority_queries = 0 ∧
    (generate_query_summary []).slow_query_percentage = 0 ∧
    (generate_query_summary []).issue_counts = [] ∧
    (generate_query_summary []).avg_execution_time = 0 ∧
    (generate_query_summary []).total_rows_examined = 0 ∧
    (generate_query_summary []).total_rows_sent = 0 :=
  ⟨rfl, rfl, rfl, rfl, rfl, rfl, rfl, rfl, rfl⟩

/-- C10: for every list of analysis results the summary satisfies
critical_queries ≤ high_priority_queries ≤ total_queries,
slow_queries ≤ total_queries, the slow-query percentage lies in [0, 100],
and total_queries is the length of the input. -/
theorem claim_C10_summary_invariants (analyses : List QueryAnalysis) :
    (generate_query_summary analyses).critical_queries ≤
      (generate_query_summary analyses).high_priority_queries ∧
    (generate_query_summary analyses).high_priority_queries ≤
      (generate_query_summary analyses).total_queries ∧
    (generate_query_summary analyses).slow_queries ≤
      (generate_query_summary analyses).total_queries ∧
    0 ≤ (generate_query_summary analyses).slow_query_percentage ∧
    (generate_query_summary analyses).slow_query_percentage ≤ 100 ∧
    (generate_query_summary analyses).total_queries = analyses.length := by
  rw [summary_total_eq, summary_slow_eq, summary_crit_eq, summary_high_eq,
    summary_pct_eq]
  refine ⟨?_, ?_, ?_, ?_, ?_, rfl⟩
  · exact length_filter_mono _ _ _ (fun a ha => by
      simp only [decide_eq_true_eq] at ha ⊢
      exact Or.inl ha)
  · exact List.length_filter_le _ _
  · exact List.length_filter_le _ _
  · split_ifs with h
    · positivity
    · exact le_refl 0
  · split_ifs with h
    · have hle : ((analyses.filter (fun a => a.is_slow)).length : ℚ) ≤
          (analyses.length : ℚ) := by
        exact_mod_cast List.length_filter_le _ _
      have hpos : (0 : ℚ) < (analyses.length : ℚ) := by exact_mod_cast h
      calc ((analyses.filter (fun a => a.is_slow)).length : ℚ) /
            (analyses.length : ℚ) * 100
          ≤ 1 * 100 := by
            apply mul_le_mul_of_nonneg_right _ (by norm_num)
            exact (div_le_one hpos).2 hle
        _ = 100 := one_mul 100
    · norm_num

/-- C1: the severity returned for every query record is determined by the
tiers evaluated high-to-low with first match winning: critical iff
execution_time > 5.0 or rows_examined > 5,000,000; else high iff
execution_time > 2.0 or rows_examined > 1,000,000; else medium iff
execution_time > 1.0 or rows_examined > 100,000; low otherwise. -/
theorem claim_C1_severity_tiers (q : QueryRecord) :
    ((analyze_query_performance q).severity = "critical" ↔
      (q.execution_time > 5 ∨ q.rows_examined > 5000000)) ∧
    ((analyze_query_performance q).severity = "high" ↔
      (¬(q.execution_time > 5 ∨ q.rows_examined > 5000000) ∧
        (q.execution_time > 2 ∨ q.rows_examined > 1000000))) ∧
    ((analyze_query_performance q).severity = "medium" ↔
      (¬(q.execution_time > 5 ∨ q.rows_examined > 5000000) ∧
        ¬(q.execution_time > 2 ∨ q.rows_examined > 1000000) ∧
        (q.execution_time > 1 ∨ q.rows_examined > 100000))) ∧
    ((analyze_query_performance q).severity = "low" ↔
      (¬(q.execution_time > 5 ∨ q.rows_examined > 5000000) ∧
        ¬(q.execution_time > 2 ∨ q.rows_examined > 1000000) ∧
        ¬(q.execution_time > 1 ∨ q.rows_examined > 100000))) := by
  have d1 : ("critical" : String) ≠ "high" := by decide
  have d2 : ("critical" : String) ≠ "medium" := by decide
  have d3 : ("critical" : String) ≠ "low" := by decide
  have d4 : ("high" : String) ≠ "medium" := by decide
  have d5 : ("high" : String) ≠ "low" := by decide
  have d6 : ("medium" : String) ≠ "low" := by decide
  rw [analyze_severity_eq]
  unfold severityOf
  split_ifs with h1 h2 h3
  · exact ⟨iff_of_true rfl h1,
      iff_of_false d1 (fun h => h.1 h1),
      iff_of_false d2 (fun h => h.1 h1),
      iff_of_false d3 (fun h => h.1 h1)⟩
  · exact ⟨iff_of_false (Ne.symm d1) h1,
      iff_of_true rfl ⟨h1, h2⟩,
      iff_of_false d4 (fun h => h.2.1 h2),
      iff_of_false d5 (fun h => h.2.1 h2)⟩
  · exact ⟨iff_of_false (Ne.symm d2) h1,
      iff_of_false (Ne.symm d4) (fun h => h2 h.2),
      iff_of_true rfl ⟨h1, h2, h3⟩,
      iff_of_false d6 (fun h => h.2.2 h3)⟩
  · exact ⟨iff_of_false (Ne.symm d3) h1,
      iff_of_false (Ne.symm d5) (fun h => h2 h.2),
      iff_of_false (Ne.symm d6) (fun h => h3 h.2.2),
      iff_of_true rfl ⟨h1, h2, h3⟩⟩

/-- C4: severity is monotone — for records whose execution_time and
rows_examined are pointwise no smaller (in particular, records agreeing on
all fields except one of the two statistics), the severity rank under
low < medium < high < critical never decreases. -/
theorem claim_C4_severity_monotone (q q' : QueryRecord)
    (ht : q.execution_time ≤ q'.execution_time)
    (hr : q.rows_examined ≤ q'.rows_examined) :
    severityRank (analyze_query_performance q).severity ≤
      severityRank (analyze_query_performance q').severity := by
  rw [analyze_severity_eq, analyze_severity_eq, rank_severityOf, rank_severityOf]
  have m1 : (q.execution_time > 5 ∨ q.rows_examined > 5000000) →
      (q'.execution_time > 5 ∨ q'.rows_examined > 5000000) := fun h =>
    h.elim (fun h => Or.inl (lt_of_lt_of_le h ht)) (fun h => Or.inr (lt_of_lt_of_le h hr))
  have m2 : (q.execution_time > 2 ∨ q.rows_examined > 1000000) →
      (q'.execution_time > 2 ∨ q'.rows_examined > 1000000) := fun h =>
    h.elim (fun h => Or.inl (lt_of_lt_of_le h ht)) (fun h => Or.inr (lt_of_lt_of_le h hr))
  have m3 : (q.execution_time > 1 ∨ q.rows_examined > 100000) →
      (q'.execution_time > 1 ∨ q'.rows_examined > 100000) := fun h =>
    h.elim (fun h => Or.inl (lt_of_lt_of_le h ht)) (fun h => Or.inr (lt_of_lt_of_le h hr))
  by_cases k1 : q.execution_time > 5 ∨ q.rows_examined > 5000000
  · rw [if_pos k1, if_pos (m1 k1)]
  · rw [if_neg k1]
    by_cases k2 : q.execution_time > 2 ∨ q.rows_examined > 1000000
    · rw [if_pos k2]
      split_ifs with a b c
      · omega
      · omega
      · exact absurd (m2 k2) b
      · exact absurd (m2 k2) b
    · rw [if_neg k2]
      by_cases k3 : q.execution_time > 1 ∨ q.rows_examined > 100000
      · rw [if_pos k3]
        split_ifs with a b c
        · omega
        · omega
        · omega
        · exact absurd (m3 k3) c
      · rw [if_neg k3]
        exact Nat.zero_le _

/-- Witness for C4 at concrete records: execution_time 1 versus 3 with all
other fields equal. -/
theorem claim_C4_witness :
    (1 : ℚ) ≤ 3 ∧ (0 : ℕ) ≤ 0 ∧
    severityRank (analyze_query_performance ⟨7, "SELECT 1", 1, 0, 0, ""⟩).severity ≤
      severityRank (analyze_query_performance ⟨7, "SELECT 1", 3, 0, 0, ""⟩).severity :=
  ⟨by norm_num, le_refl 0,
    claim_C4_severity_monotone ⟨7, "SELECT 1", 1, 0, 0, ""⟩ ⟨7, "SELECT 1", 3, 0, 0, ""⟩
      (by norm_num) (le_refl 0)⟩

/-- C2 fails as stated: with rows_examined = 0 and rows_sent = 5 the code
returns efficiency_ratio 0, not rows_sent / max(rows_examined, 1) = 5; and
with rows_sent = 2, rows_examined = 1 the returned ratio is 2, outside
[0, 1]. -/
theorem claim_C2_counterexample :
    (analyze_query_performance ⟨1, "", 0, 0, 5, ""⟩).efficiency_ratio ≠
      (((⟨1, "", 0, 0, 5, ""⟩ : QueryRecord).rows_sent : ℚ) /
        ((max (⟨1, "", 0, 0, 5, ""⟩ : QueryRecord).rows_examined 1 : ℕ) : ℚ)) ∧
    1 < (analyze_query_performance ⟨2, "", 0, 1, 2, ""⟩).efficiency_ratio := by
  constructor
  · rw [analyze_eff_eq]
    norm_num
  · rw [analyze_eff_eq]
    norm_num

/-- C2 amended: the code computes efficiency_ratio = rows_sent / rows_examined
when rows_examined > 0 and 0 when rows_examined = 0 (so no division error
can occur); the ratio lies in [0, 1] whenever rows_sent ≤ rows_examined,
but can exceed 1 when rows_sent > rows_examined. -/
theorem claim_C2_efficiency_ratio (q : QueryRecord) :
    (q.rows_examined = 0 → (analyze_query_performance q).efficiency_ratio = 0) ∧
    (0 < q.rows_examined → (analyze_query_performance q).efficiency_ratio =
      (q.rows_sent : ℚ) / (q.rows_examined : ℚ)) ∧
    (q.rows_sent ≤ q.rows_examined →
      0 ≤ (analyze_query_performance q).efficiency_ratio ∧
        (analyze_query_performance q).efficiency_ratio ≤ 1) := by
  rw [analyze_eff_eq]
  refine ⟨fun h0 => ?_, fun hpos => ?_, fun hle => ?_⟩
  · rw [if_neg (by omega)]
  · rw [if_pos hpos]
  · by_cases hpos : 0 < q.rows_examined
    · rw [if_pos hpos]
      constructor
      · positivity
      · refine (div_le_one ?_).2 ?_
        · exact_mod_cast hpos
        · exact_mod_cast hle
    · rw [if_neg hpos]
      norm_num

/-- Witness for C2 (amended) at a concrete record with rows_sent 2 and
rows_examined 4. -/
theorem claim_C2_witness :
    (0 : ℕ) < 4 ∧ (2 : ℕ) ≤ 4 ∧
    (analyze_query_performance ⟨3, "", 0, 4, 2, ""⟩).efficiency_ratio =
      ((2 : ℕ) : ℚ) / ((4 : ℕ) : ℚ) ∧
    0 ≤ (analyze_query_performance ⟨3, "", 0, 4, 2, ""⟩).efficiency_ratio ∧
    (analyze_query_performance ⟨3, "", 0, 4, 2, ""⟩).efficiency_ratio ≤ 1 :=
  ⟨by norm_num, by norm_num,
    (claim_C2_efficiency_ratio ⟨3, "", 0, 4, 2, ""⟩).2.1 (by norm_num),
    ((claim_C2_efficiency_ratio ⟨3, "", 0, 4, 2, ""⟩).2.2 (by norm_num)).1,
    ((claim_C2_efficiency_ratio ⟨3, "", 0, 4, 2, ""⟩).2.2 (by norm_num)).2⟩

/-- C3 fails as stated: on the Scenario A record the analyzer detects no
issue category at all (the missing_index equality pattern requires a
literal question-mark placeholder, which the query lacks), so the category
set is empty rather than the claimed singleton. -/
theorem claim_C3_counterexample :
    (analyze_query_performance scenarioARecord).issues = [] ∧
    (analyze_query_performance scenarioARecord).issues ≠ ["missing_index"] := by
  have hiss : (analyze_query_performance scenarioARecord).issues = [] := rfl
  exact ⟨hiss, by rw [hiss]; simp⟩

/-- C3 amended: on the Scenario A record the analyzer returns the empty
category set, severity medium, efficiency_ratio 0.000001, and a
recommendation list consisting solely of the low-efficiency-ratio
suggestion — no index-creation suggestion. -/
theorem claim_C3_scenarioA :
    (analyze_query_performance scenarioARecord).issues = [] ∧
    (analyze_query_performance scenarioARecord).severity = "medium" ∧
    (analyze_query_performance scenarioARecord).efficiency_ratio = 1 / 1000000 ∧
    (analyze_query_performance scenarioARecord).recommendations = [recLowEff] := by
  have hiss : detectIssues scenarioAQuery = [] := rfl
  refine ⟨rfl, ?_, ?_, ?_⟩
  · rw [analyze_severity_eq]
    show severityOf (1 / 2) 1000000 = "medium"
    unfold severityOf
    norm_num
  · rw [analyze_eff_eq]
    show (if (1000000 : ℕ) > 0 then ((1 : ℕ) : ℚ) / ((1000000 : ℕ) : ℚ) else 0) =
      1 / 1000000
    norm_num
  · rw [analyze_recs_eq]
    unfold generate_recommendations
    rw [base_issues_eq, base_eff_eq, base_time_eq]
    simp only [show scenarioARecord.query = scenarioAQuery from rfl, hiss,
      show scenarioARecord.rows_examined = 1000000 from rfl,
      show scenarioARecord.rows_sent = 1 from rfl,
      show scenarioARecord.execution_time = 1 / 2 from rfl]
    norm_num

/-- C8 fails as stated: the all-zero record is classified with severity low,
but the recommendation list is not empty — the zero efficiency ratio
triggers the low-efficiency suggestion. -/
theorem claim_C8_counterexample :
    (analyze_query_performance ⟨0, "", 0, 0, 0, ""⟩).recommendations = [recLowEff] ∧
    (analyze_query_performance ⟨0, "", 0, 0, 0, ""⟩).recommendations ≠ [] := by
  have hr : (analyze_query_performance ⟨0, "", 0, 0, 0, ""⟩).recommendations
      = [recLowEff] := by
    rw [analyze_recs_eq]
    unfold generate_recommendations
    rw [base_issues_eq, base_eff_eq, base_time_eq]
    simp only [show (⟨0, "", 0, 0, 0, ""⟩ : QueryRecord).query = "" from rfl,
      show detectIssues "" = [] from rfl,
      show (⟨0, "", 0, 0, 0, ""⟩ : QueryRecord).rows_examined = 0 from rfl,
      show (⟨0, "", 0, 0, 0, ""⟩ : QueryRecord).rows_sent = 0 from rfl,
      show (⟨0, "", 0, 0, 0, ""⟩ : QueryRecord).execution_time = 0 from rfl]
    norm_num
  exact ⟨hr, by rw [hr]; simp⟩

/-- C8 amended: classification is total (never raises) on records with all
fields present; a record whose query text and statistics are all
zero-valued is classified with the lowest severity low and an empty issue
set, but its recommendation list is the singleton low-efficiency-ratio
suggestion, not the empty list. -/
theorem claim_C8_degenerate (i : ℕ) (e : String) :
    (analyze_query_performance ⟨i, "", 0, 0, 0, e⟩).severity = "low" ∧
    (analyze_query_performance ⟨i, "", 0, 0, 0, e⟩).issues = [] ∧
    (analyze_query_performance ⟨i, "", 0, 0, 0, e⟩).recommendations = [recLowEff] := by
  refine ⟨?_, rfl, ?_⟩
  · rw [analyze_severity_eq]
    show severityOf 0 0 = "low"
    unfold severityOf
    norm_num
  · rw [analyze_recs_eq]
    unfold generate_recommendations
    rw [base_issues_eq, base_eff_eq, base_time_eq]
    simp only [show (⟨i, "", 0, 0, 0, e⟩ : QueryRecord).query = "" from rfl,
      show detectIssues "" = [] from rfl,
      show (⟨i, "", 0, 0, 0, e⟩ : QueryRecord).rows_examined = 0 from rfl,
      show (⟨i, "", 0, 0, 0, e⟩ : QueryRecord).rows_sent = 0 from rfl,
      show (⟨i, "", 0, 0, 0, e⟩ : QueryRecord).execution_time = 0 from rfl]
    norm_num

/-- C5 fails as stated: with an untrained model, detect_anomalies returns the
plain verdict (False, 0.0) — a value of the ordinary verdict type that a
trained model can equally produce, so it is not distinguished, and it
carries no count of additional samples. -/
theorem claim_C5_counterexample :
    detect_anomalies none [] = (false, 0) ∧
    detect_anomalies (some ((fun _ => (false, 0)) : AnomalyModel)) [] =
      detect_anomalies none [] :=
  ⟨rfl, rfl⟩

/-- C5 amended: the untrained paths never raise, but return no distinguished
result — detect_anomalies with an untrained model returns the ordinary
verdict (False, 0.0) with no sample count, and train_anomaly_model with
fewer than min_samples_for_training samples merely leaves the model
unchanged. -/
theorem claim_C5_not_ready (current : MetricSample)
    (fit : List MetricSample → AnomalyModel) (model : Option AnomalyModel)
    (metrics_data : List MetricSample)
    (h : metrics_data.length < min_samples_for_training) :
    detect_anomalies none current = (false, 0) ∧
    train_anomaly_model min_samples_for_training fit model metrics_data = model :=
  ⟨rfl, if_pos h⟩

/-- Witness for C5 (amended): an empty training batch against the default
minimum of 10. -/
theorem claim_C5_witness :
    ([] : List MetricSample).length < min_samples_for_training ∧
    detect_anomalies none [] = (false, 0) ∧
    train_anomaly_model min_samples_for_training
      (fun _ => ((fun _ => (true, 1)) : AnomalyModel)) none [] = none :=
  ⟨by norm_num [min_samples_for_training],
    (claim_C5_not_ready [] (fun _ => ((fun _ => (true, 1)) : AnomalyModel)) none []
      (by norm_num [min_samples_for_training])).1,
    (claim_C5_not_ready [] (fun _ => ((fun _ => (true, 1)) : AnomalyModel)) none []
      (by norm_num [min_samples_for_training])).2⟩

/-- C6 fails as stated: load_metrics_history has no exception handler, so
when the snapshot file is present but malformed the json decode error
propagates instead of an empty sequence being returned. -/
theorem claim_C6_counterexample :
    load_metrics_history json_load_ex (some "corrupt") =
      Except.error "Expecting value" ∧
    load_metrics_history json_load_ex (some "corrupt") ≠ Except.ok [] := by
  have he : load_metrics_history json_load_ex (some "corrupt") =
      Except.error "Expecting value" := by
    unfold load_metrics_history json_load_ex
    simp
  exact ⟨he, by rw [he]; simp⟩

/-- C6 amended: load_metrics_history returns the empty sequence when the
snapshot file is absent, and when the file is present it returns exactly
the outcome of json.load on its contents — the decoded history when
parseable, the propagated decode error when corrupt. -/
theorem claim_C6_load (json_load : String → Except String (List MetricSample)) :
    load_metrics_history json_load none = Except.ok [] ∧
    ∀ contents : String,
      load_metrics_history json_load (some contents) = json_load contents :=
  ⟨rfl, fun _ => rfl⟩

/-- C7: after every append the history is the at-most-1000 most recent
entries: its length is capped at 1000, and it equals the appended sequence
with the oldest entries dropped from the head (none dropped while within
the cap), preserving insertion order. -/
theorem claim_C7_history_cap (history : List MetricSample) (m : MetricSample) :
    (save_metrics history m).length ≤ 1000 ∧
    save_metrics history m = (history ++ [m]).drop ((history.length + 1) - 1000) := by
  unfold save_metrics
  have hl : (history ++ [m]).length = history.length + 1 := by simp
  by_cases hc : (history ++ [m]).length > 1000
  · rw [if_pos hc]
    constructor
    · rw [List.length_drop]
      omega
    · rw [hl]
  · rw [if_neg hc]
    constructor
    · omega
    · rw [show (history.length + 1) - 1000 = 0 from by omega, List.drop_zero]

end AceE6
